import Mathlib

/-!
Shallow embedding of the peptide-research e-commerce backend
(`src/main.py`, `src/schemas.py`): a thin HTTP-to-document-store layer.
The document store is the external collaborator of the spec (insert-one,
find-all, find-one, list-collection-names, possibly absent); it is
modelled abstractly by the `Store` structure below.  Handlers are pure
functions from the (possibly absent) store and the request to a response
together with the list of insertions they perform on the store.
-/

namespace Peptide

/-- JSON-like values held in store documents. -/
inductive Val where
  | str : String → Val
  | num : ℚ → Val
  | intv : Int → Val
  | bool : Bool → Val
  | null : Val
  | arr : List Val → Val
  | doc : List (String × Val) → Val

/-- A document from the store: a record of named fields. -/
abbrev Doc := List (String × Val)

/-- Whether a value is Python `None`. -/
def Val.isNull : Val → Bool
  | .null => true
  | _ => false

/-- Python `str(v)` as used on store identifiers (`str(d.pop("_id"))`). -/
def Val.toStr : Val → String
  | .str s => s
  | .num q => toString q
  | .intv n => toString n
  | .bool b => toString b
  | .null => "None"
  | .arr _ => "[...]"
  | .doc _ => "\x7b...\x7d"

/-- Python truthiness of `find_one`'s result: `None` and the empty
document are falsy, any non-empty document is truthy. -/
def docTruthy : Option Doc → Bool
  | none => false
  | some d => !d.isEmpty

/-- Embedding of `to_str_id` from `src/main.py`: on a falsy (empty) document, return it
unchanged; otherwise, if the document has a non-`None` `_id` field, remove
it and add its string form under the key `id`. -/
def to_str_id (d : Doc) : Doc :=
  if d.isEmpty then d
  else
    match d.lookup "_id" with
    | none => d
    | some v =>
        if v.isNull then d
        else (d.filter (fun kv => kv.1 ≠ "_id")) ++ [("id", Val.str v.toStr)]

/-- Validity of a product-identifier string for `bson.ObjectId`:
`ObjectId(s)` succeeds exactly on 24-character hexadecimal strings. -/
def isValidObjectId (s : String) : Bool :=
  s.length == 24 &&
    s.data.all (fun c =>
      c.isDigit || ('a' ≤ c && c ≤ 'f') || ('A' ≤ c && c ≤ 'F'))

/-- Python string slicing `s[:n]`: the first `n` characters. -/
def strTake (s : String) (n : Nat) : String := ⟨s.data.take n⟩

/-- The external document-store collaborator (spec §6): find-one by
collection and identifier, find-all by collection, the collection-name
listing, a store name, and the identifier it will assign to an insert. -/
structure Store where
  name : String
  findOne : String → String → Option Doc
  findAll : String → List Doc
  listCollectionNames : List String
  assignId : String

/-- One insertion performed on the store: collection name and document. -/
abbrev Insert := String × Doc

/-! ## Schemas (`src/schemas.py` / `src/main.py`) -/

/-- The `PeptideProduct` pydantic model (validated form). -/
structure PeptideProduct where
  name : String
  code : String
  description : Option String
  price : ℚ
  purity : String
  form : String
  storage : String
  size : String
  in_stock : Bool
  research_only : Bool

/-- A raw JSON body for POST /api/products, before schema validation:
every field possibly absent. -/
structure RawProduct where
  name : Option String
  code : Option String
  description : Option String
  price : Option ℚ
  purity : Option String
  form : Option String
  storage : Option String
  size : Option String
  in_stock : Option Bool
  research_only : Option Bool

/-- Pydantic validation of `RawProduct` against the `PeptideProduct`
schema: all required fields must be present, `price ≥ 0` (`Field(..., ge=0)`),
and `in_stock` / `research_only` default to `true`. -/
def validateProduct (r : RawProduct) : Option PeptideProduct :=
  match r.name, r.code, r.price, r.purity, r.form, r.storage, r.size with
  | some n, some c, some p, some pu, some f, some st, some sz =>
      if 0 ≤ p then
        some ⟨n, c, r.description, p, pu, f, st, sz,
              r.in_stock.getD true, r.research_only.getD true⟩
      else none
  | _, _, _, _, _, _, _ => none

/-- The `OrderItem` pydantic model. -/
structure OrderItem where
  product_id : String
  quantity : Int

/-- The `Order` pydantic model (validated form). -/
structure Order where
  items : List OrderItem
  customer_name : String
  email : String
  institution : Option String
  country : String
  research_use_only_ack : Bool
  age_over_21_ack : Bool
  notes : Option String

/-- The document stored for a product by `create_document`. -/
def productToDoc (p : PeptideProduct) : Doc :=
  [("name", .str p.name), ("code", .str p.code),
   ("description", p.description.elim Val.null Val.str),
   ("price", .num p.price), ("purity", .str p.purity),
   ("form", .str p.form), ("storage", .str p.storage),
   ("size", .str p.size), ("in_stock", .bool p.in_stock),
   ("research_only", .bool p.research_only)]

/-- The document stored for an order item. -/
def orderItemToDoc (it : OrderItem) : Doc :=
  [("product_id", .str it.product_id), ("quantity", .intv it.quantity)]

/-- The document stored for an order by `create_document`. -/
def orderToDoc (o : Order) : Doc :=
  [("items", .arr (o.items.map (fun it => .doc (orderItemToDoc it)))),
   ("customer_name", .str o.customer_name), ("email", .str o.email),
   ("institution", o.institution.elim Val.null Val.str),
   ("country", .str o.country),
   ("research_use_only_ack", .bool o.research_use_only_ack),
   ("age_over_21_ack", .bool o.age_over_21_ack),
   ("notes", o.notes.elim Val.null Val.str)]

/-! ## Endpoint results -/

/-- Result of GET /api/products/{id}. -/
inductive GetProductResult where
  | invalid400 (detail : String)
  | notFound404 (detail : String)
  | ok200 (d : Doc)

/-- HTTP status of a GET /api/products/{id} result. -/
def GetProductResult.status : GetProductResult → Nat
  | .invalid400 _ => 400
  | .notFound404 _ => 404
  | .ok200 _ => 200

/-- Result of POST /api/products. -/
inductive CreateProductResult where
  | validation422
  | storeUnavailable500 (detail : String)
  | created201 (id : String)

/-- HTTP status of a POST /api/products result. -/
def CreateProductResult.status : CreateProductResult → Nat
  | .validation422 => 422
  | .storeUnavailable500 _ => 500
  | .created201 _ => 201

/-- Success body of POST /api/orders: `status`, `persisted`, and the
optional `id` field (`none` = field absent from the response). -/
structure OrderBody where
  status : String
  persisted : Bool
  id : Option String

/-- Result of POST /api/orders. -/
inductive CreateOrderResult where
  | compliance400 (detail : String)
  | created201 (body : OrderBody)

/-- HTTP status of a POST /api/orders result. -/
def CreateOrderResult.status : CreateOrderResult → Nat
  | .compliance400 _ => 400
  | .created201 _ => 201

/-! ## Route handlers (`src/main.py`) -/

/-- GET /api/products (`list_products`): empty list when no store is
configured, otherwise all documents of the `peptideproduct` collection
with their identifiers surfaced through `to_str_id`.  The handler always
returns normally, so the HTTP status is always 200. -/
def list_products (db : Option Store) : Nat × List Doc :=
  match db with
  | none => (200, [])
  | some s => (200, (s.findAll "peptideproduct").map to_str_id)

/-- GET /api/products/{id} (`get_product`): 404 when no store is
configured; then 400 when `ObjectId(product_id)` fails; then `find_one`
on the `peptideproduct` collection, 404 when the result is falsy,
otherwise the document through `to_str_id`. -/
def get_product (db : Option Store) (product_id : String) : GetProductResult :=
  match db with
  | none => .notFound404 "Product not found"
  | some s =>
      if isValidObjectId product_id then
        let d := s.findOne "peptideproduct" product_id
        if docTruthy d then .ok200 (to_str_id (d.getD []))
        else .notFound404 "Product not found"
      else .invalid400 "Invalid product id"

/-- POST /api/products handler body (`create_product`), on an already
schema-validated product: 500 when no store is configured, otherwise
insert into `peptideproduct` and return the assigned identifier. -/
def create_product (db : Option Store) (p : PeptideProduct) :
    CreateProductResult × List Insert :=
  match db with
  | none => (.storeUnavailable500 "Database not available", [])
  | some s => (.created201 s.assignId, [("peptideproduct", productToDoc p)])

/-- The full POST /api/products endpoint: FastAPI/pydantic schema
validation (422 on failure, before the handler runs) followed by
`create_product`. -/
def post_api_products (db : Option Store) (r : RawProduct) :
    CreateProductResult × List Insert :=
  match validateProduct r with
  | none => (.validation422, [])
  | some p => create_product db p

/-- POST /api/orders (`create_order`), on an already schema-validated
order: 400 unless both acknowledgements are true; then, with no store
configured, accept without persisting (`persisted: false`, no `id`);
with a store, insert into `order` and return the assigned identifier. -/
def create_order (db : Option Store) (o : Order) :
    CreateOrderResult × List Insert :=
  if !o.research_use_only_ack || !o.age_over_21_ack then
    (.compliance400 "Compliance acknowledgements are required", [])
  else
    match db with
    | none => (.created201 ⟨"received", false, none⟩, [])
    | some s => (.created201 ⟨"received", true, some s.assignId⟩,
                 [("order", orderToDoc o)])

/-! ## Diagnostic endpoint (`test_database`) -/

/-- Outcome of probing the store inside GET /test: the re-import of the
`database` module may raise, yield `None`, or yield a store handle with
an optional `name` attribute, the `DATABASE_URL` environment state, and a
collection-name listing that may itself raise. -/
inductive ProbeOutcome where
  | importError (msg : String)
  | dbNone
  | dbSome (name : Option String) (urlSet : Bool)
      (collections : Except String (List String))

/-- The GET /test response object. -/
structure TestResponse where
  backend : String
  database : String
  database_url : Option String
  database_name : Option String
  connection_status : String
  collections : List String

/-- GET /test (`test_database`): builds the diagnostic object, catching
every exception from the probe and truncating exception text to 50
characters; the endpoint itself always returns 200 with this object. -/
def test_database (o : ProbeOutcome) : TestResponse :=
  match o with
  | .importError e =>
      ⟨"✅ Running", "❌ Error: " ++ strTake e 50, none, none,
       "Not Connected", []⟩
  | .dbNone =>
      ⟨"✅ Running", "⚠️  Available but not initialized", none, none,
       "Not Connected", []⟩
  | .dbSome nm urlSet colls =>
      let url := if urlSet then "✅ Set" else "❌ Not Set"
      let dbname := nm.getD "✅ Connected"
      match colls with
      | .ok cs =>
          ⟨"✅ Running", "✅ Connected & Working", some url, some dbname,
           "Connected", cs.take 10⟩
      | .error e =>
          ⟨"✅ Running", "⚠️  Connected but Error: " ++ strTake e 50,
           some url, some dbname, "Connected", []⟩

/-! ## Concrete stores used to instantiate the theorems -/

/-- A configured store holding no documents. -/
def emptyStore : Store :=
  ⟨"testdb", fun _ _ => none, fun _ => [], [], "652f1a2b3c4d5e6f70819202"⟩

/-- A configured store whose find-one yields an empty (falsy) document. -/
def falsyStore : Store :=
  ⟨"testdb", fun _ _ => some [], fun _ => [], [], "652f1a2b3c4d5e6f70819202"⟩

/-- The order of the example in spec §8 (RUO acknowledged, age not). -/
def exampleOrder : Order :=
  ⟨[⟨"abc", 2⟩], "A", "a@b.com", none, "US", true, false, none⟩

/-- The example order with both acknowledgements set to true. -/
def ackedOrder : Order :=
  ⟨[⟨"abc", 2⟩], "A", "a@b.com", none, "US", true, true, none⟩

/-! ## Theorems -/

/-- C1: for every order with either acknowledgement flag false, POST
/api/orders returns 400 (compliance acknowledgements required), for any
item contents and for any store configuration, and performs no insertion
into the store. -/
theorem create_order_missing_ack_rejected (db : Option Store) (o : Order)
    (h : o.research_use_only_ack = false ∨ o.age_over_21_ack = false) :
    (create_order db o).1
        = .compliance400 "Compliance acknowledgements are required"
      ∧ (create_order db o).1.status = 400
      ∧ (create_order db o).2 = [] := by
  rcases h with h | h <;>
    simp [create_order, h, CreateOrderResult.status]

/-- C1 witness: the spec §8 example order (age acknowledgement false) is
rejected with 400 and nothing is inserted, with or without a store. -/
theorem create_order_missing_ack_rejected_witness :
    (exampleOrder.research_use_only_ack = false
        ∨ exampleOrder.age_over_21_ack = false)
      ∧ (create_order none exampleOrder).1.status = 400
      ∧ (create_order none exampleOrder).2 = []
      ∧ (create_order (some emptyStore) exampleOrder).2 = [] :=
  ⟨Or.inr rfl,
   (create_order_missing_ack_rejected none exampleOrder (Or.inr rfl)).2.1,
   (create_order_missing_ack_rejected none exampleOrder (Or.inr rfl)).2.2,
   (create_order_missing_ack_rejected (some emptyStore) exampleOrder
      (Or.inr rfl)).2.2⟩

/-- C2: for every order with both acknowledgements true and no store
configured, POST /api/orders returns 201 with body
status received, persisted false, and no id field, inserting nothing. -/
theorem create_order_no_store_received (o : Order)
    (h1 : o.research_use_only_ack = true) (h2 : o.age_over_21_ack = true) :
    create_order none o = (.created201 ⟨"received", false, none⟩, [])
      ∧ (create_order none o).1.status = 201 := by
  constructor
  · simp [create_order, h1, h2]
  · simp [create_order, h1, h2, CreateOrderResult.status]

/-- C2 witness: the fully acknowledged example order, with no store,
yields 201 received / not persisted / no id. -/
theorem create_order_no_store_received_witness :
    create_order none ackedOrder = (.created201 ⟨"received", false, none⟩, [])
      ∧ (create_order none ackedOrder).1.status = 201 :=
  create_order_no_store_received ackedOrder rfl rfl

/-- C3: every POST /api/products request whose price field is negative
fails pydantic validation with 422, for any store configuration, and
performs no insertion. -/
theorem post_products_negative_price_rejected (db : Option Store)
    (r : RawProduct) (q : ℚ) (hp : r.price = some q) (hq : q < 0) :
    (post_api_products db r).1 = .validation422
      ∧ (post_api_products db r).1.status = 422
      ∧ (post_api_products db r).2 = [] := by
  obtain ⟨n, c, dsc, p, pu, f, st, sz, is, ro⟩ := r
  have hp' : p = some q := hp
  subst hp'
  have hv : validateProduct ⟨n, c, dsc, some q, pu, f, st, sz, is, ro⟩
      = none := by
    unfold validateProduct
    cases n <;> cases c <;> cases pu <;> cases f <;> cases st <;> cases sz <;>
      simp [not_le.mpr hq]
  simp [post_api_products, hv, CreateProductResult.status]

/-- C3 witness: a payload with price -1 is rejected with 422 and no
insertion, both with and without a configured store. -/
theorem post_products_negative_price_rejected_witness :
    (post_api_products none
        ⟨some "BPC-157", some "P1", none, some (-1), some "98",
         some "powder", some "cold", some "5mg", none, none⟩).1.status = 422
      ∧ (post_api_products (some emptyStore)
        ⟨some "BPC-157", some "P1", none, some (-1), some "98",
         some "powder", some "cold", some "5mg", none, none⟩).2 = [] :=
  ⟨(post_products_negative_price_rejected none
      ⟨some "BPC-157", some "P1", none, some (-1), some "98",
       some "powder", some "cold", some "5mg", none, none⟩ (-1) rfl
      (by norm_num)).2.1,
   (post_products_negative_price_rejected (some emptyStore)
      ⟨some "BPC-157", some "P1", none, some (-1), some "98",
       some "powder", some "cold", some "5mg", none, none⟩ (-1) rfl
      (by norm_num)).2.2⟩

/-- C4: with a store configured, GET /api/products/{id} returns 400 on a
syntactically invalid ObjectId string, and 404 on a well-formed
identifier for which find-one yields no document. -/
theorem get_product_configured_errors (s : Store) (pid : String) :
    (isValidObjectId pid = false →
        get_product (some s) pid = .invalid400 "Invalid product id")
      ∧ (isValidObjectId pid = true →
          s.findOne "peptideproduct" pid = none →
          get_product (some s) pid = .notFound404 "Product not found") := by
  constructor
  · intro h
    simp [get_product, h]
  · intro h hf
    simp [get_product, h, hf, docTruthy]

/-- C4 witness: on the empty configured store, a malformed identifier
gets 400 and a well-formed unknown identifier gets 404. -/
theorem get_product_configured_errors_witness :
    get_product (some emptyStore) "not-an-objectid"
        = .invalid400 "Invalid product id"
      ∧ get_product (some emptyStore) "0123456789abcdef01234567"
        = .notFound404 "Product not found" :=
  ⟨(get_product_configured_errors emptyStore "not-an-objectid").1 (by decide),
   (get_product_configured_errors emptyStore "0123456789abcdef01234567").2
      (by decide) rfl⟩

/-- C5 counterexample: with a store configured, a syntactically invalid
identifier does not produce 404: the handler answers 400. -/
theorem get_product_invalid_id_not_notfound :
    (get_product (some emptyStore) "not-an-objectid").status = 400
      ∧ ¬ ((get_product (some emptyStore) "not-an-objectid").status = 404) := by
  constructor <;> decide

/-- C5 amended: get product by id fails with 400 (invalid identifier
format) if the identifier is syntactically invalid while a store is
configured; it fails with NotFound (404) if a well-formed identifier
matches no record, or if no store is configured. -/
theorem get_product_failure_modes (s : Store) (pid : String) :
    (isValidObjectId pid = false →
        (get_product (some s) pid).status = 400)
      ∧ (isValidObjectId pid = true →
          s.findOne "peptideproduct" pid = none →
          (get_product (some s) pid).status = 404)
      ∧ (get_product none pid).status = 404 := by
  refine ⟨fun h => ?_, fun h hf => ?_, rfl⟩
  · simp [get_product, h, GetProductResult.status]
  · simp [get_product, h, hf, docTruthy, GetProductResult.status]

/-- C5 amended witness: both failure branches at concrete identifiers on
the empty configured store. -/
theorem get_product_failure_modes_witness :
    (get_product (some emptyStore) "not-an-objectid").status = 400
      ∧ (get_product (some emptyStore) "00000000000000000000ffff").status = 404 :=
  ⟨(get_product_failure_modes emptyStore "not-an-objectid").1 (by decide),
   (get_product_failure_modes emptyStore "00000000000000000000ffff").2.1
      (by decide) rfl⟩

/-- C6: with no store configured, GET /api/products/{id} returns 404 for
every identifier string, syntactically invalid ones included, because the
no-store check precedes identifier validation. -/
theorem get_product_no_store_always_404 (pid : String) :
    get_product none pid = .notFound404 "Product not found"
      ∧ (get_product none pid).status = 404 :=
  ⟨rfl, rfl⟩

/-- C7: GET /api/products with no store configured returns the empty
array with status 200. -/
theorem list_products_no_store_empty_ok :
    list_products none = (200, []) :=
  rfl

/-- C8: with no store configured, POST /api/products fails with 500
(database not available) for every validated payload, while the read
paths never answer 500: GET /api/products/{id} never has status 500 for
any store state, and GET /api/products always answers 200. -/
theorem store_unavailable_only_on_create :
    (∀ p : PeptideProduct,
        create_product none p
          = (.storeUnavailable500 "Database not available", []))
      ∧ (∀ (db : Option Store) (pid : String),
          (get_product db pid).status ≠ 500)
      ∧ (∀ db : Option Store, (list_products db).1 = 200) := by
  refine ⟨fun p => rfl, fun db pid => ?_, fun db => ?_⟩
  · cases db with
    | none => simp [get_product, GetProductResult.status]
    | some s =>
        simp only [get_product]
        by_cases h : isValidObjectId pid = true
        · simp only [h, if_true]
          by_cases ht : docTruthy (s.findOne "peptideproduct" pid) = true
          · simp [ht, GetProductResult.status]
          · simp [ht, GetProductResult.status]
        · simp [h, GetProductResult.status]
  · cases db <;> rfl

/-- C9: GET /test always returns its diagnostic object with the backend
marked running, and every exception raised while probing the store is
surfaced as text whose embedded exception message is truncated to at most
50 characters. -/
theorem test_database_never_fails :
    (∀ o : ProbeOutcome, (test_database o).backend = "✅ Running")
      ∧ (∀ e, (test_database (.importError e)).database
            = "❌ Error: " ++ strTake e 50
          ∧ (strTake e 50).length ≤ 50)
      ∧ (∀ nm urlSet e,
          (test_database (.dbSome nm urlSet (.error e))).database
            = "⚠️  Connected but Error: " ++ strTake e 50
          ∧ (strTake e 50).length ≤ 50) := by
  refine ⟨fun o => ?_, fun e => ⟨rfl, ?_⟩, fun nm urlSet e => ⟨rfl, ?_⟩⟩
  · cases o with
    | importError e => rfl
    | dbNone => rfl
    | dbSome nm u c => cases c <;> rfl
  · exact List.length_take_le 50 e.data
  · exact List.length_take_le 50 e.data

/-- C10: with a store configured and a well-formed identifier, whenever
find-one yields a falsy result — no document or an empty document — the
handler answers 404: it tests truthiness, not mere presence. -/
theorem get_product_falsy_doc_404 (s : Store) (pid : String)
    (h : isValidObjectId pid = true)
    (hf : docTruthy (s.findOne "peptideproduct" pid) = false) :
    get_product (some s) pid = .notFound404 "Product not found" := by
  simp [get_product, h, hf]

/-- C10 witness: a store whose find-one yields the empty document still
produces 404 at a well-formed identifier. -/
theorem get_product_falsy_doc_404_witness :
    get_product (some falsyStore) "0123456789abcdef01234567"
      = .notFound404 "Product not found" :=
  get_product_falsy_doc_404 falsyStore "0123456789abcdef01234567"
    (by decide) rfl

end Peptide
